import Mathlib

/-!
Shallow embedding of `scripts/supabase_setup.py` (the whole program of the
repository) and proofs about it.

The script is a linear sequence: read the environment variable
`SUPABASE_DB_URL` (line 7), compute the schema path from the script's own
resolved location (line 8), check the file exists (line 10, exit 1), read the
file as UTF-8 text (line 14, may raise), check the URL is truthy (line 16,
exit 2), import psycopg (line 24, exit 3), then connect, execute the SQL as
one command, commit, print success and return 0 (lines 31-39).  The wrapper
`raise SystemExit(main())` (line 43) turns the return value into the exit
code and lets any exception propagate.

The embedding makes every external interaction explicit in a `World` record
(what the environment, file system, interpreter and database would answer)
and records each observable action in an event trace, so that claims about
output, ordering and absence of database contact become statements about
the trace.
-/

namespace SupabaseSetup

/-- Ways `Path.read_text(encoding="utf-8")` can fail on an existing file:
the bytes are not valid UTF-8, or the OS refuses the read. -/
inductive ReadErr where
  | notUtf8
  | osError
deriving DecidableEq, Repr

/-- Which database call raised. -/
inductive DBStage where
  | connectFail
  | executeFail
  | commitFail
deriving DecidableEq, Repr

/-- Exceptions that can escape `main` (nothing in `main` catches them,
except the bare import guard around `import psycopg`). -/
inductive PyErr where
  | readError (e : ReadErr)
  | dbError (s : DBStage)
deriving DecidableEq, Repr

/-- Observable actions of one run, in program order. -/
inductive Event where
  | envRead
  | existsCheck (found : Bool)
  | fileRead
  | print (s : String)
  | connect (url : String)
  | execute (sql : String)
  | commit
deriving DecidableEq, Repr

/-- How the process ends: `exit c` is `raise SystemExit(c)` from the clean
return of `main`; `uncaught e` is an exception propagating out of `main`
(the process then terminates with the runtime's nonzero status). -/
inductive Outcome where
  | exit (code : Nat)
  | uncaught (e : PyErr)
deriving DecidableEq, Repr

/-- Everything outside the program that one invocation can observe:
the value of `SUPABASE_DB_URL` (`none` = unset), whether the schema file
exists, what reading it yields, whether `import psycopg` succeeds, and
whether each database call succeeds. -/
structure World where
  envDbUrl : Option String
  fileExists : Bool
  readResult : Except ReadErr String
  importOk : Bool
  connectOk : Bool
  executeOk : Bool
  commitOk : Bool
deriving Repr

/-- Python truthiness of `db_url` as used by `if not db_url:` on line 16:
falsy when unset (`None`) or the empty string. -/
def falsyUrl : Option String → Bool
  | none => true
  | some s => s.isEmpty

/-- Message printed on line 11 for a missing schema file; it names the
resolved path. -/
def missingMsg (pathStr : String) : String :=
  "schema.sql not found at: " ++ pathStr

/-- Lines 17-21: the two remediation options printed before exit code 2. -/
def noUrlPrints : List Event :=
  [ Event.print "SUPABASE_DB_URL is not set."
  , Event.print "\nOption A (automatic): set SUPABASE_DB_URL and re-run:"
  , Event.print "  export SUPABASE_DB_URL=\x27postgres://postgres:<PASSWORD>@db.<project-ref>.supabase.co:5432/postgres\x27"
  , Event.print "  python scripts/supabase_setup.py"
  , Event.print "\nOption B (manual): paste the SQL from supabase/schema.sql into the Supabase SQL editor." ]

/-- Lines 27-28: the installation instruction printed before exit code 3. -/
def noPsycopgPrints : List Event :=
  [ Event.print "Missing dependency: psycopg"
  , Event.print "Install with: pip install psycopg[binary]" ]

/-- The body of `main` (lines 6-39) followed by `raise SystemExit(main())`
(line 43), as a function from the outside world to the process outcome and
the trace of observable actions, transcribed branch by branch from the
source.  `pathStr` is the string form of the resolved `schema_path`. -/
def run (pathStr : String) (w : World) : Outcome × List Event :=
  -- line 7: db_url = os.getenv("SUPABASE_DB_URL")
  let dbUrl := w.envDbUrl
  let t0 : List Event := [Event.envRead]
  -- line 10: if not schema_path.exists(): print(...); return 1
  let t1 := t0 ++ [Event.existsCheck w.fileExists]
  if w.fileExists = false then
    (Outcome.exit 1, t1 ++ [Event.print (missingMsg pathStr)])
  else
    -- line 14: sql = schema_path.read_text(encoding="utf-8")
    let t2 := t1 ++ [Event.fileRead]
    match w.readResult with
    | Except.error e => (Outcome.uncaught (PyErr.readError e), t2)
    | Except.ok sql =>
      -- line 16: if not db_url: print options; return 2
      if falsyUrl dbUrl = true then
        (Outcome.exit 2, t2 ++ noUrlPrints)
      else
        -- lines 24-29: try import psycopg except: print; return 3
        if w.importOk = false then
          (Outcome.exit 3, t2 ++ noPsycopgPrints)
        else
          -- line 31
          let t3 := t2 ++ [Event.print "Applying supabase/schema.sql ..."]
          -- line 33: with psycopg.connect(db_url) as conn
          let url := dbUrl.getD ""
          let t4 := t3 ++ [Event.connect url]
          if w.connectOk = false then
            (Outcome.uncaught (PyErr.dbError DBStage.connectFail), t4)
          else
            -- line 35: cur.execute(sql)
            let t5 := t4 ++ [Event.execute sql]
            if w.executeOk = false then
              (Outcome.uncaught (PyErr.dbError DBStage.executeFail), t5)
            else
              -- line 36: conn.commit()
              let t6 := t5 ++ [Event.commit]
              if w.commitOk = false then
                (Outcome.uncaught (PyErr.dbError DBStage.commitFail), t6)
              else
                -- lines 38-39
                (Outcome.exit 0, t6 ++ [Event.print "Done."])

/-- Recognises the database execute call in a trace. -/
def isExecute : Event → Bool
  | Event.execute _ => true
  | _ => false

/-- Recognises the commit call in a trace. -/
def isCommit : Event → Bool
  | Event.commit => true
  | _ => false

/-- Recognises any database contact: connect, execute or commit. -/
def isDbContact : Event → Bool
  | Event.connect _ => true
  | Event.execute _ => true
  | Event.commit => true
  | _ => false

/-!
Path resolution, line 8:
`schema_path = Path(__file__).resolve().parents[1] / "supabase" / "schema.sql"`.
A path is a list of components plus an absolute flag; `resolve` makes the
path absolute against the current working directory and normalises `.` and
`..`; `parents[1]` strips the file name and one directory.
-/

/-- Drops `.` components and lets `..` cancel the previous component, as
`Path.resolve` does after making the path absolute. -/
def normalizeComps (comps : List String) : List String :=
  comps.foldl
    (fun acc c =>
      if c = "." then acc
      else if c = ".." then acc.dropLast
      else acc ++ [c])
    []

/-- A file-system path: possibly relative, as `__file__` can be when the
interpreter was started with a relative script path. -/
structure PyPath where
  isAbs : Bool
  comps : List String
deriving DecidableEq, Repr

/-- `Path(p).resolve()` run in the directory `cwd`: absolute paths ignore
`cwd`, relative ones are joined to it; either way the result is normalised. -/
def resolvePath (cwd : List String) (p : PyPath) : List String :=
  if p.isAbs then normalizeComps p.comps
  else normalizeComps (cwd ++ p.comps)

/-- Line 8: the schema path is the grandparent directory of the resolved
script file (`parents[1]`), extended with `supabase/schema.sql`. -/
def schemaPathOf (cwd : List String) (file : PyPath) : List String :=
  (resolvePath cwd file).dropLast.dropLast ++ ["supabase", "schema.sql"]

/-! Concrete worlds used to instantiate the theorems below. -/

/-- Everything present and succeeding. -/
def wAllOk : World :=
  ⟨some "postgres://user@host/db", true,
   Except.ok "CREATE TABLE IF NOT EXISTS t(id INT);", true, true, true, true⟩

/-- Schema file missing, connection string set. -/
def wMissing : World :=
  ⟨some "postgres://user@host/db", false, Except.ok "SQL", true, true, true, true⟩

/-- Schema file missing, connection string unset; otherwise as `wMissing`. -/
def wMissNoUrl : World :=
  ⟨none, false, Except.ok "SQL", true, true, true, true⟩

/-- Schema file present and readable, connection string unset. -/
def wNoUrl : World :=
  ⟨none, true, Except.ok "SQL", true, true, true, true⟩

/-- Schema file present and readable, connection string set, psycopg missing. -/
def wNoLib : World :=
  ⟨some "postgres://user@host/db", true, Except.ok "SQL", false, true, true, true⟩

/-- Schema file present but not valid UTF-8, connection string unset. -/
def wBadBytes : World :=
  ⟨none, true, Except.error ReadErr.notUtf8, true, true, true, true⟩

/-- Schema file present but not valid UTF-8, connection string set, psycopg
missing. -/
def wBadBytesNoLib : World :=
  ⟨some "postgres://user@host/db", true, Except.error ReadErr.notUtf8,
   false, true, true, true⟩

/-- Schema file present but the OS refuses the read, connection string
unset. -/
def wBadBytesOs : World :=
  ⟨none, true, Except.error ReadErr.osError, true, true, true, true⟩

/-- Everything present but the database connection fails. -/
def wConnFail : World :=
  ⟨some "postgres://user@host/db", true, Except.ok "SQL", true, false, true, true⟩

/-! Theorems, one per claim, with witnesses and counterexamples. -/

/-- C1: when the schema file exists and reads successfully, the connection
string is set and non-empty, the client library imports, and connect,
execute and commit succeed, the program executes the entire file content as
one command, commits exactly once, prints the success message, and exits
with code 0. -/
theorem success_path_exits_zero (p : String) (w : World) (sql : String)
    (hf : w.fileExists = true) (hr : w.readResult = Except.ok sql)
    (hu : falsyUrl w.envDbUrl = false) (hi : w.importOk = true)
    (hc : w.connectOk = true) (he : w.executeOk = true)
    (hm : w.commitOk = true) :
    (run p w).1 = Outcome.exit 0 ∧
    (run p w).2.filter isExecute = [Event.execute sql] ∧
    (run p w).2.filter isCommit = [Event.commit] ∧
    Event.print "Done." ∈ (run p w).2 := by
  simp [run, hf, hr, hu, hi, hc, he, hm, isExecute, isCommit]

/-- Witness for C1 at a concrete world where everything succeeds. -/
theorem success_path_exits_zero_witness :
    (run "P" wAllOk).1 = Outcome.exit 0 ∧
    (run "P" wAllOk).2.filter isExecute
      = [Event.execute "CREATE TABLE IF NOT EXISTS t(id INT);"] ∧
    (run "P" wAllOk).2.filter isCommit = [Event.commit] ∧
    Event.print "Done." ∈ (run "P" wAllOk).2 :=
  success_path_exits_zero "P" wAllOk "CREATE TABLE IF NOT EXISTS t(id INT);"
    rfl rfl rfl rfl rfl rfl rfl

/-- C2: whatever string reaches the database execute call is exactly the
text that reading the schema file produced; nothing is truncated or
transformed between line 14 and line 35. -/
theorem execute_payload_is_file_content (p : String) (w : World) (s : String)
    (h : Event.execute s ∈ (run p w).2) :
    w.readResult = Except.ok s := by
  obtain ⟨u, fe, rr, io, co, eo, mo⟩ := w
  cases fe <;> rcases rr with e | sql <;> cases io <;> cases co <;>
    cases eo <;> cases mo <;> cases hfu : falsyUrl u <;>
    simp_all [run, noUrlPrints, noPsycopgPrints, missingMsg]

/-- Witness for C2: a run whose trace contains the execute call. -/
theorem execute_payload_is_file_content_witness :
    Event.execute "CREATE TABLE IF NOT EXISTS t(id INT);" ∈ (run "P" wAllOk).2 ∧
    wAllOk.readResult = Except.ok "CREATE TABLE IF NOT EXISTS t(id INT);" :=
  ⟨by decide,
   execute_payload_is_file_content "P" wAllOk
     "CREATE TABLE IF NOT EXISTS t(id INT);"
     (by decide)⟩

/-- C3: with the schema file missing the program exits with code 1, prints
a message naming the missing path, and makes no database contact. -/
theorem missing_file_exits_one (p : String) (w : World)
    (h : w.fileExists = false) :
    (run p w).1 = Outcome.exit 1 ∧
    Event.print ("schema.sql not found at: " ++ p) ∈ (run p w).2 ∧
    ∀ e ∈ (run p w).2, isDbContact e = false := by
  simp [run, h, missingMsg, isDbContact]

/-- Witness for C3 at a concrete missing-file world. -/
theorem missing_file_exits_one_witness :
    (run "P" wMissing).1 = Outcome.exit 1 ∧
    Event.print ("schema.sql not found at: " ++ "P") ∈ (run "P" wMissing).2 ∧
    ∀ e ∈ (run "P" wMissing).2, isDbContact e = false :=
  missing_file_exits_one "P" wMissing rfl

/-- C4 counterexample: in a missing-file run the environment variable IS
read (line 7 runs before the existence check on line 10), so the claim
that no environment access is attempted fails. -/
theorem missing_file_env_is_read :
    wMissing.fileExists = false ∧ Event.envRead ∈ (run "P" wMissing).2 := by
  exact ⟨rfl, by simp [run, wMissing]⟩

/-- C4 (amended): with the schema file missing the environment variable is
still read, but its value cannot influence the run: any two missing-file
worlds (in particular two differing only in the connection-string variable)
produce the identical outcome and printed output, and no database contact
occurs. -/
theorem missing_file_noninterference (p : String) (w1 w2 : World)
    (h1 : w1.fileExists = false) (h2 : w2.fileExists = false) :
    run p w1 = run p w2 ∧ ∀ e ∈ (run p w1).2, isDbContact e = false := by
  simp [run, h1, h2, isDbContact]

/-- Witness for the amended C4: two worlds differing only in the
connection-string variable, both with the file missing. -/
theorem missing_file_noninterference_witness :
    run "P" wMissing = run "P" wMissNoUrl ∧
    ∀ e ∈ (run "P" wMissing).2, isDbContact e = false :=
  missing_file_noninterference "P" wMissing wMissNoUrl rfl rfl

/-- C5 counterexample: the schema file exists and the connection string is
unset, yet the exit code is not 2: the UTF-8 decode on line 14 raises
before the connection-string check on line 16. -/
theorem unreadable_file_not_exit_two :
    wBadBytes.fileExists = true ∧ falsyUrl wBadBytes.envDbUrl = true ∧
    (run "P" wBadBytes).1 ≠ Outcome.exit 2 := by
  refine ⟨rfl, rfl, ?_⟩
  simp [run, wBadBytes]

/-- C5 (amended): when the schema file exists, its text reads and decodes
successfully, and the connection string is unset or empty, the program
exits with code 2, prints both remediation options, and makes no database
contact. -/
theorem no_url_exits_two (p : String) (w : World) (sql : String)
    (hf : w.fileExists = true) (hr : w.readResult = Except.ok sql)
    (hu : falsyUrl w.envDbUrl = true) :
    (run p w).1 = Outcome.exit 2 ∧
    Event.print "\nOption A (automatic): set SUPABASE_DB_URL and re-run:"
      ∈ (run p w).2 ∧
    Event.print "\nOption B (manual): paste the SQL from supabase/schema.sql into the Supabase SQL editor."
      ∈ (run p w).2 ∧
    ∀ e ∈ (run p w).2, isDbContact e = false := by
  simp [run, hf, hr, hu, noUrlPrints, isDbContact]

/-- Witness for the amended C5. -/
theorem no_url_exits_two_witness :
    (run "P" wNoUrl).1 = Outcome.exit 2 ∧
    Event.print "\nOption A (automatic): set SUPABASE_DB_URL and re-run:"
      ∈ (run "P" wNoUrl).2 ∧
    Event.print "\nOption B (manual): paste the SQL from supabase/schema.sql into the Supabase SQL editor."
      ∈ (run "P" wNoUrl).2 ∧
    ∀ e ∈ (run "P" wNoUrl).2, isDbContact e = false :=
  no_url_exits_two "P" wNoUrl "SQL" rfl rfl rfl

/-- C6 counterexample: the schema file exists, the connection string is set
and non-empty, and psycopg is unavailable, yet the exit code is not 3: the
decode failure on line 14 raises before the import on line 25 is reached. -/
theorem unreadable_file_not_exit_three :
    wBadBytesNoLib.fileExists = true ∧
    falsyUrl wBadBytesNoLib.envDbUrl = false ∧
    wBadBytesNoLib.importOk = false ∧
    (run "P" wBadBytesNoLib).1 ≠ Outcome.exit 3 := by
  refine ⟨rfl, rfl, rfl, ?_⟩
  simp [run, wBadBytesNoLib]

/-- C6 (amended): when the schema file exists, its text reads and decodes
successfully, the connection string is set and non-empty, and the client
library cannot be imported, the program exits with code 3, prints the
installation instruction, and makes no database contact. -/
theorem no_psycopg_exits_three (p : String) (w : World) (sql : String)
    (hf : w.fileExists = true) (hr : w.readResult = Except.ok sql)
    (hu : falsyUrl w.envDbUrl = false) (hi : w.importOk = false) :
    (run p w).1 = Outcome.exit 3 ∧
    Event.print "Missing dependency: psycopg" ∈ (run p w).2 ∧
    Event.print "Install with: pip install psycopg[binary]" ∈ (run p w).2 ∧
    ∀ e ∈ (run p w).2, isDbContact e = false := by
  simp [run, hf, hr, hu, hi, noPsycopgPrints, isDbContact]

/-- Witness for the amended C6. -/
theorem no_psycopg_exits_three_witness :
    (run "P" wNoLib).1 = Outcome.exit 3 ∧
    Event.print "Missing dependency: psycopg" ∈ (run "P" wNoLib).2 ∧
    Event.print "Install with: pip install psycopg[binary]" ∈ (run "P" wNoLib).2 ∧
    ∀ e ∈ (run "P" wNoLib).2, isDbContact e = false :=
  no_psycopg_exits_three "P" wNoLib "SQL" rfl rfl rfl rfl

/-- C7 counterexample: the final consequence of the ordering claim fails as
stated: here the file exists and the connection string is unset, yet the
exit code is not 2, because the read on line 14 raises first. -/
theorem ordering_consequence_fails :
    wBadBytesOs.fileExists = true ∧ falsyUrl wBadBytesOs.envDbUrl = true ∧
    (run "P" wBadBytesOs).1 ≠ Outcome.exit 2 := by
  refine ⟨rfl, rfl, ?_⟩
  simp [run, wBadBytesOs]

/-- C7 (amended): the checks are ordered.  A missing file yields exit code
1 whatever the environment, library and database would have answered; an
existing file that reads successfully with an unset connection string
yields exit code 2 whatever the library state; and a connection is
attempted only when the file exists, the connection string is truthy and
the import succeeded. -/
theorem checks_are_ordered (p : String) (w1 w2 w3 : World) (sql url : String)
    (h1 : w1.fileExists = false)
    (h2f : w2.fileExists = true) (h2r : w2.readResult = Except.ok sql)
    (h2u : falsyUrl w2.envDbUrl = true)
    (h3 : Event.connect url ∈ (run p w3).2) :
    (run p w1).1 = Outcome.exit 1 ∧
    (run p w2).1 = Outcome.exit 2 ∧
    (w3.fileExists = true ∧ falsyUrl w3.envDbUrl = false ∧
      w3.importOk = true) := by
  refine ⟨by simp [run, h1], by simp [run, h2f, h2r, h2u], ?_⟩
  obtain ⟨u, fe, rr, io, co, eo, mo⟩ := w3
  cases fe <;> rcases rr with e | s <;> cases io <;> cases co <;>
    cases eo <;> cases mo <;> cases hfu : falsyUrl u <;>
    simp_all [run, noUrlPrints, noPsycopgPrints, missingMsg]

/-- Witness for the amended C7 at three concrete worlds. -/
theorem checks_are_ordered_witness :
    (run "P" wMissing).1 = Outcome.exit 1 ∧
    (run "P" wNoUrl).1 = Outcome.exit 2 ∧
    (wAllOk.fileExists = true ∧ falsyUrl wAllOk.envDbUrl = false ∧
      wAllOk.importOk = true) :=
  checks_are_ordered "P" wMissing wNoUrl wAllOk "SQL"
    "postgres://user@host/db" rfl rfl rfl rfl (by decide)

/-- C8: once the program reaches the database (file present and readable,
truthy connection string, import succeeded), a failure of connect, execute
or commit escapes `main` as an uncaught database exception, and no clean
exit code is produced. -/
theorem db_failure_uncaught (p : String) (w : World) (sql : String)
    (hf : w.fileExists = true) (hr : w.readResult = Except.ok sql)
    (hu : falsyUrl w.envDbUrl = false) (hi : w.importOk = true)
    (hfail : w.connectOk = false ∨ w.executeOk = false ∨ w.commitOk = false) :
    (∃ s, (run p w).1 = Outcome.uncaught (PyErr.dbError s)) ∧
    ∀ c : Nat, (run p w).1 ≠ Outcome.exit c := by
  have hmain : ∃ s, (run p w).1 = Outcome.uncaught (PyErr.dbError s) := by
    cases hco : w.connectOk with
    | false => exact ⟨DBStage.connectFail, by simp [run, hf, hr, hu, hi, hco]⟩
    | true =>
      cases heo : w.executeOk with
      | false =>
        exact ⟨DBStage.executeFail, by simp [run, hf, hr, hu, hi, hco, heo]⟩
      | true =>
        cases hmo : w.commitOk with
        | false =>
          exact ⟨DBStage.commitFail,
            by simp [run, hf, hr, hu, hi, hco, heo, hmo]⟩
        | true => rcases hfail with h | h | h <;> simp_all
  refine ⟨hmain, ?_⟩
  obtain ⟨s, hs⟩ := hmain
  intro c hc
  rw [hs] at hc
  exact Outcome.noConfusion hc

/-- Witness for C8 at a world where the connection fails. -/
theorem db_failure_uncaught_witness :
    (∃ s, (run "P" wConnFail).1 = Outcome.uncaught (PyErr.dbError s)) ∧
    ∀ c : Nat, (run "P" wConnFail).1 ≠ Outcome.exit c :=
  db_failure_uncaught "P" wConnFail "SQL" rfl rfl rfl rfl (Or.inl rfl)

/-- C9: the schema path depends only on the resolved location of the
script file: two invocations from different working directories whose
script resolves to the same absolute location compute the same schema
path. -/
theorem schema_path_from_program_location (cwd1 cwd2 : List String)
    (f1 f2 : PyPath) (h : resolvePath cwd1 f1 = resolvePath cwd2 f2) :
    schemaPathOf cwd1 f1 = schemaPathOf cwd2 f2 := by
  simp [schemaPathOf, h]

/-- Witness for C9: a relative `__file__` resolved from its directory and
an absolute one pointing at the same file give the same schema path. -/
theorem schema_path_from_program_location_witness :
    resolvePath ["home", "user"]
        ⟨false, ["repo", "scripts", "supabase_setup.py"]⟩
      = resolvePath ["tmp"]
        ⟨true, ["home", "user", "repo", "scripts", "supabase_setup.py"]⟩ ∧
    schemaPathOf ["home", "user"]
        ⟨false, ["repo", "scripts", "supabase_setup.py"]⟩
      = schemaPathOf ["tmp"]
        ⟨true, ["home", "user", "repo", "scripts", "supabase_setup.py"]⟩ :=
  ⟨by decide,
   schema_path_from_program_location ["home", "user"] ["tmp"]
     ⟨false, ["repo", "scripts", "supabase_setup.py"]⟩
     ⟨true, ["home", "user", "repo", "scripts", "supabase_setup.py"]⟩
     (by decide)⟩

/-- C10: when the schema file exists but reading or decoding it fails, the
error escapes `main` uncaught before the connection-string check: no clean
exit code is produced, none of the remediation output is printed, and no
database contact occurs, whatever the connection-string variable holds. -/
theorem decode_failure_uncaught (p : String) (w : World) (e : ReadErr)
    (hf : w.fileExists = true) (hr : w.readResult = Except.error e) :
    (run p w).1 = Outcome.uncaught (PyErr.readError e) ∧
    (∀ c : Nat, (run p w).1 ≠ Outcome.exit c) ∧
    Event.print "SUPABASE_DB_URL is not set." ∉ (run p w).2 ∧
    ∀ ev ∈ (run p w).2, isDbContact ev = false := by
  simp [run, hf, hr, isDbContact]

/-- Witness for C10: an existing file with invalid UTF-8 bytes while the
connection string is also unset. -/
theorem decode_failure_uncaught_witness :
    (run "P" wBadBytes).1 = Outcome.uncaught (PyErr.readError ReadErr.notUtf8) ∧
    (∀ c : Nat, (run "P" wBadBytes).1 ≠ Outcome.exit c) ∧
    Event.print "SUPABASE_DB_URL is not set." ∉ (run "P" wBadBytes).2 ∧
    ∀ ev ∈ (run "P" wBadBytes).2, isDbContact ev = false :=
  decode_failure_uncaught "P" wBadBytes ReadErr.notUtf8 rfl rfl

end SupabaseSetup
